import Mathlib

/-!
Verification of the RTRWH (rooftop rainwater harvesting) assessment
core.  A shallow embedding of the computation core of the `app` package:

* `app/compute.py` — `calculate_potential`, `recommend_structure`,
  `cost_estimation`, `calculate_structure_dimensions`;
* `app/services.py` — `get_rainfall` (its decision structure, with the
  network modelled as an oracle) and `assess_rtrwh`;
* `app/models.py` — `UserInput` and the flat result record produced by
  `AssessmentResult.to_dict` plus the extra keys added by `assess_rtrwh`.

Python numbers are modelled as exact rationals (`ℚ`); `round(x, 2)` is
modelled as round-half-to-even at two decimals, `int(x)` as truncation
toward zero, and `//` as floor division (`Int.fdiv`), matching Python's
semantics on the exact values.
-/

namespace Rainwater

/-- Python's `round(x, 2)`: round to the nearest multiple of 1/100,
ties going to the even multiple (banker's rounding). -/
def round2 (q : ℚ) : ℚ :=
  let x := q * 100
  let n : ℤ := ⌊x⌋
  let k : ℤ :=
    if x - n < 1 / 2 then n
    else if 1 / 2 < x - n then n + 1
    else if n % 2 = 0 then n else n + 1
  (k : ℚ) / 100

/-- Python's `int(x)` on a float: truncation toward zero. -/
def truncToInt (q : ℚ) : ℤ := if 0 ≤ q then ⌊q⌋ else ⌈q⌉

/-- Python truthiness of a float: `False` exactly for `0.0`. -/
def pyTruthy (q : ℚ) : Bool := decide (q ≠ 0)

/-- Python truthiness of an optional string: `False` for `None` and `""`. -/
def optStrTruthy : Option String → Bool
  | none => false
  | some s => !s.isEmpty

/-- Embedding of `app/models.py` `UserInput`: the typed site-input record.  Numeric
fields carry their coerced values; `name`/`location` stay untyped text. -/
structure UserInput where
  name : Option String
  location : Option String
  latitude : ℚ
  longitude : ℚ
  dwellers : ℤ
  roof_area : ℚ
  open_space : ℚ
  gw_depth : ℚ

/-- Embedding of `app/compute.py` `calculate_potential`. -/
def calculate_potential (user_input : UserInput) (rainfall_mm : ℚ) : ℚ :=
  let runoff_coeff : ℚ := 0.8
  let infiltration_factor : ℚ := 0.3
  let roof_contribution := rainfall_mm * user_input.roof_area * runoff_coeff
  let open_space_contribution := rainfall_mm * user_input.open_space * infiltration_factor
  let total_runoff := roof_contribution + open_space_contribution
  round2 total_runoff

/-- Embedding of `app/compute.py` `recommend_structure`. -/
def recommend_structure (user_input : UserInput) (potential : ℚ) : String :=
  if potential < 50000 then
    if user_input.open_space < 20 then "Modular Tank (compact)" else "Recharge Pit (small)"
  else if 50000 ≤ potential ∧ potential ≤ 200000 then
    if 50 ≤ user_input.open_space then "Recharge Trench (medium)"
    else "Recharge Pit (large, reinforced)"
  else
    if 100 ≤ user_input.open_space then "Recharge Shaft with Trench"
    else "Deep Bore Recharge Shaft"

/-- The `base_costs` dictionary lookup in `cost_estimation`
(`base_costs.get(structure, 30000)`). -/
def base_costs (struct : String) : ℤ :=
  if struct = "Recharge Pit (small)" then 20000
  else if struct = "Recharge Pit (large, reinforced)" then 40000
  else if struct = "Recharge Trench (medium)" then 60000
  else if struct = "Recharge Shaft" then 100000
  else if struct = "Deep Bore Recharge Shaft" then 150000
  else if struct = "Recharge Shaft with Trench" then 180000
  else if struct = "Modular Tank (compact)" then 25000
  else 30000

/-- Embedding of `app/compute.py` `cost_estimation`: returns `(round(total_cost, 2),
benefit_label)`.  `int(potential) // 50000` is truncation toward zero
followed by floor division. -/
def cost_estimation (potential : ℚ) (struct : String) : ℚ × String :=
  let base_cost := base_costs struct
  let extra_cost := (truncToInt potential).fdiv 50000 * 10000
  let total_cost := base_cost + extra_cost
  let benefit_ratio : ℚ :=
    if 0 < total_cost then round2 (potential / (total_cost : ℚ)) else 0
  let benefit_label :=
    if 5 < benefit_ratio then "High benefit"
    else if 2 < benefit_ratio then "Moderate cost-benefit"
    else "Low benefit"
  (round2 ((total_cost : ℚ)), benefit_label)

/-- Whether the first character list occurs at the head of the second. -/
def leadsWith : List Char → List Char → Bool
  | [], _ => true
  | _ :: _, [] => false
  | a :: as, b :: bs => a == b && leadsWith as bs

/-- Whether the first character list occurs anywhere inside the second. -/
def occursIn (pat : List Char) : List Char → Bool
  | [] => leadsWith pat []
  | c :: rest => leadsWith pat (c :: rest) || occursIn pat rest

/-- Python's substring containment `pat in s` on strings. -/
def strContains (s pat : String) : Bool := occursIn pat.data s.data

/-- Embedding of `app/compute.py` `calculate_structure_dimensions`: substring-keyed
dispatch producing the human-readable design guideline string (the
Python f-strings are modelled by explicit concatenation). -/
def calculate_structure_dimensions (struct : String) (potential : ℚ) : String :=
  if strContains struct "Pit" then
    let pits_needed : ℤ := if 0 < potential then ⌈potential / 2500⌉ else 0
    "1.2m × 1.2m × 2m each, " ++ toString pits_needed ++ " pits"
  else if strContains struct "Trench" then
    let sections_needed : ℤ := if 0 < potential then ⌈potential / 15000⌉ else 0
    "1m width × 1.5m depth × 10m length, " ++ toString sections_needed ++ " trench sections"
  else if strContains struct "Shaft" then
    let shafts_needed : ℤ := if 0 < potential then ⌈potential / 50000⌉ else 0
    "2m diameter × 10m depth, " ++ toString shafts_needed ++ " shafts"
  else if strContains struct "Modular" then
    let volume_m3 : ℤ := if 0 < potential then ⌈potential / 1000⌉ else 0
    toString volume_m3 ++ " m³ modular tank system"
  else
    "Standard design as per site conditions"

/-- The `data["rain"]` payload of a weather-provider response:
`{"1h": …, "3h": …}`, each key optional. -/
structure RainData where
  oneH : Option ℚ := none
  threeH : Option ℚ := none

/-- A weather-provider HTTP response: a status code and the optional
`"rain"` object.  `requests.get` raising is modelled by the oracle
returning `none`. -/
structure ApiResponse where
  status_code : ℤ
  rain : Option RainData := none

/-- The response-handling tail of `get_rainfall` (`services.py` lines
46–66), applied to the oracle's answer.  Returns the resolved rainfall
paired with `true` to record that a network request was made. -/
def handleResponse (resp : Option ApiResponse) : ℚ × Bool :=
  match resp with
  | none => (1000.0, true)
  | some r =>
    if r.status_code ≠ 200 then (1000.0, true)
    else
      let rainfall_mm : ℚ :=
        match r.rain with
        | none => 0
        | some rd => rd.oneH.getD (rd.threeH.getD 0)
      if rainfall_mm = 0 then (1000.0, true)
      else (round2 (rainfall_mm * 24 * 365), true)

/-- Embedding of `app/services.py` `get_rainfall`.  `key` models the module-level
`OPENWEATHER_API_KEY` (`None` or a string); `net` models the network:
it is only consulted when the source actually issues `requests.get`.
The result is paired with a `Bool` recording whether a request was
made.  The two URL-building branches differ only in the URL, which does
not affect the modelled result, so both feed `handleResponse`. -/
def get_rainfall (lat lon : ℚ) (location : Option String) (key : Option String)
    (net : Unit → Option ApiResponse) : ℚ × Bool :=
  if pyTruthy lat && pyTruthy lon && optStrTruthy key then
    handleResponse (net ())
  else if optStrTruthy location && optStrTruthy key then
    handleResponse (net ())
  else
    (1000.0, false)

/-- The raw request dictionary consumed by `assess_rtrwh` (`data.get`
returns `None` for absent keys; values are already well-typed, since
input coercion happens at the transport boundary). -/
structure AssessData where
  name : Option String := none
  location : Option String := none
  latitude : Option ℚ := none
  longitude : Option ℚ := none
  dwellers : Option ℤ := none
  roof_area : Option ℚ := none
  open_space : Option ℚ := none
  gw_depth : Option ℚ := none
  rainfall_mm : Option ℚ := none

/-- Decimal rendering of a multiple of 1/100, as Python's `repr`
renders the corresponding float (`30.85`, `30.8`, `31.0`, `-12.05`). -/
def fmtHundredths (q : ℚ) : String :=
  let k : ℤ := ⌊q * 100⌋
  let sign := if k < 0 then "-" else ""
  let a := k.natAbs
  let ip := a / 100
  let fr := a % 100
  sign ++ toString ip ++ "." ++
    (if fr = 0 then "0"
     else if fr % 10 = 0 then toString (fr / 10)
     else if fr < 10 then "0" ++ toString fr
     else toString fr)

/-- The `demand_status` f-string chain of `assess_rtrwh` (`services.py`
lines 120–127).  When `yearly_demand ≤ 0` the source's
`coverage_percent` is the int `0`, which Python formats as `"0"`;
otherwise it is a float, rendered by `fmtHundredths`. -/
def demandStatusStr (yearly_demand : ℤ) (coverage_percent : ℚ) : String :=
  let pct := if 0 < yearly_demand then fmtHundredths coverage_percent else "0"
  (if 100 ≤ coverage_percent then "Fully sufficient"
   else if 70 ≤ coverage_percent then "Adequate"
   else if 30 ≤ coverage_percent then "Partial"
   else "Minimal") ++ " (" ++ pct ++ "%)"

/-- The flat result dictionary returned by `assess_rtrwh`: the keys of
`AssessmentResult.to_dict` (`models.py`) plus the five extra keys added
by `result.update` (`services.py` lines 140–146). -/
structure AssessOutput where
  feasibility : String
  runoff_capacity : ℚ
  recommended_structure : String
  estimated_cost : ℚ
  benefit_ratio : String
  depth_to_groundwater_m : ℚ
  yearly_demand_liters : ℤ
  coverage_percentage : ℚ
  demand_met_status : String
  structure_dimensions : String
  rainfall_used_mm : ℚ

/-- Embedding of `app/services.py` `assess_rtrwh`.  `key` and `net` are the ambient
provider credential and network oracle threaded into `get_rainfall`. -/
def assess_rtrwh (key : Option String) (net : Unit → Option ApiResponse)
    (data : AssessData) : AssessOutput :=
  let user_input : UserInput :=
    { name := data.name
      location := data.location
      latitude := data.latitude.getD 0
      longitude := data.longitude.getD 0
      dwellers := data.dwellers.getD 1
      roof_area := data.roof_area.getD 0
      open_space := data.open_space.getD 0
      gw_depth := data.gw_depth.getD 0 }
  let rainfall : ℚ :=
    match data.rainfall_mm with
    | some r => r
    | none =>
      (get_rainfall user_input.latitude user_input.longitude user_input.location key net).1
  let potential := calculate_potential user_input rainfall
  let struct := recommend_structure user_input potential
  let dimensions := calculate_structure_dimensions struct potential
  let cost := (cost_estimation potential struct).1
  let benefit := (cost_estimation potential struct).2
  let yearly_demand : ℤ := user_input.dwellers * 135 * 365
  let coverage_percent : ℚ :=
    if 0 < yearly_demand then round2 (potential / (yearly_demand : ℚ) * 100) else 0
  let demand_status := demandStatusStr yearly_demand coverage_percent
  { feasibility := if 0 < potential then "Feasible" else "Not Feasible"
    runoff_capacity := potential
    recommended_structure := struct
    estimated_cost := cost
    benefit_ratio := benefit
    depth_to_groundwater_m := user_input.gw_depth
    yearly_demand_liters := yearly_demand
    coverage_percentage := coverage_percent
    demand_met_status := demand_status
    structure_dimensions := dimensions
    rainfall_used_mm := rainfall }

/-! ## Helper lemmas -/

lemma round2_eq_low (q : ℚ) (n : ℤ) (h1 : (n : ℚ) ≤ q * 100)
    (h2 : q * 100 < (n : ℚ) + 1 / 2) : round2 q = (n : ℚ) / 100 := by
  have hf : ⌊q * 100⌋ = n := Int.floor_eq_iff.mpr ⟨h1, by linarith⟩
  have hfr : q * 100 - (n : ℚ) < 1 / 2 := by linarith
  simp only [round2, hf, hfr, if_true, if_pos]

lemma round2_eq_high (q : ℚ) (n : ℤ) (h1 : (n : ℚ) + 1 / 2 < q * 100)
    (h2 : q * 100 < (n : ℚ) + 1) : round2 q = ((n : ℚ) + 1) / 100 := by
  have hf : ⌊q * 100⌋ = n := Int.floor_eq_iff.mpr ⟨by linarith, h2⟩
  have hfr1 : ¬ (q * 100 - (n : ℚ) < 1 / 2) := by push_neg; linarith
  have hfr2 : 1 / 2 < q * 100 - (n : ℚ) := by linarith
  simp only [round2, hf, hfr1, hfr2, if_false, if_true, if_pos, if_neg, not_false_iff]
  push_cast
  ring

lemma round2_intCast (n : ℤ) : round2 ((n : ℚ)) = (n : ℚ) := by
  rw [round2_eq_low _ (100 * n) (by push_cast; linarith) (by push_cast; linarith)]
  push_cast
  ring

lemma truncToInt_cast (n : ℤ) : truncToInt ((n : ℚ)) = n := by
  unfold truncToInt
  rcases le_or_lt 0 ((n : ℚ)) with h | h
  · rw [if_pos h, Int.floor_intCast]
  · rw [if_neg (not_le.mpr h), Int.ceil_intCast]

lemma truncToInt_mono {p q : ℚ} (h : p ≤ q) : truncToInt p ≤ truncToInt q := by
  unfold truncToInt
  rcases le_or_lt 0 p with hp | hp
  · rw [if_pos hp, if_pos (le_trans hp h)]
    exact Int.floor_le_floor h
  · rcases le_or_lt 0 q with hq | hq
    · rw [if_neg (not_le.mpr hp), if_pos hq]
      calc ⌈p⌉ ≤ ⌈(0 : ℚ)⌉ := Int.ceil_le_ceil (le_of_lt hp)
        _ = 0 := by norm_num
        _ ≤ ⌊q⌋ := Int.le_floor.mpr (by exact_mod_cast hq)
    · rw [if_neg (not_le.mpr hp), if_neg (not_le.mpr hq)]
      exact Int.ceil_le_ceil h

lemma fdiv_50000_mono {a b : ℤ} (h : a ≤ b) : a.fdiv 50000 ≤ b.fdiv 50000 := by
  rw [Int.fdiv_eq_ediv _ (by norm_num), Int.fdiv_eq_ediv _ (by norm_num)]
  exact Int.ediv_le_ediv (by norm_num) h

/-! ## Claims -/

/-- Claim C1: For every `roof_area`, `open_space` and `rainfall_mm`
(including negative values, which are accepted, not rejected),
`calculate_potential(user_input, rainfall_mm)` returns exactly
`round(rainfall_mm*roof_area*0.8 + rainfall_mm*open_space*0.3, 2)`. -/
theorem calculate_potential_formula (user_input : UserInput) (rainfall_mm : ℚ) :
    calculate_potential user_input rainfall_mm =
      round2 (rainfall_mm * user_input.roof_area * 0.8 +
        rainfall_mm * user_input.open_space * 0.3) := by
  rfl

/-- Claim C2: `recommend_structure` realises the six-row first-match
decision table over `(potential, open_space)`: below 50 000 the
open-space cut is at 20; on the inclusive range 50 000–200 000 the cut
is at 50; above 200 000 the cut is at 100.  The nested-`if` right-hand
side makes the boundary behaviour explicit: `potential = 50000` and
`potential = 200000` both take the middle (inclusive) rows. -/
theorem recommend_structure_decision_table (user_input : UserInput) (potential : ℚ) :
    recommend_structure user_input potential =
      if potential < 50000 then
        if user_input.open_space < 20 then "Modular Tank (compact)" else "Recharge Pit (small)"
      else if potential ≤ 200000 then
        if 50 ≤ user_input.open_space then "Recharge Trench (medium)"
        else "Recharge Pit (large, reinforced)"
      else
        if 100 ≤ user_input.open_space then "Recharge Shaft with Trench"
        else "Deep Bore Recharge Shaft" := by
  unfold recommend_structure
  rcases lt_or_le potential 50000 with h | h
  · rw [if_pos h, if_pos h]
  · rw [if_neg (not_lt.mpr h), if_neg (not_lt.mpr h)]
    rcases le_or_lt potential 200000 with h2 | h2
    · rw [if_pos ⟨h, h2⟩, if_pos h2]
    · rw [if_neg (fun hc => absurd hc.2 (not_le.mpr h2)), if_neg (not_le.mpr h2)]

lemma benefit_label_iff (r : ℚ) :
    ((if 5 < r then "High benefit"
      else if 2 < r then "Moderate cost-benefit" else "Low benefit") = "High benefit" ↔ 5 < r) ∧
    ((if 5 < r then "High benefit"
      else if 2 < r then "Moderate cost-benefit" else "Low benefit") = "Moderate cost-benefit" ↔
        2 < r ∧ r ≤ 5) ∧
    ((if 5 < r then "High benefit"
      else if 2 < r then "Moderate cost-benefit" else "Low benefit") = "Low benefit" ↔ r ≤ 2) := by
  rcases lt_or_le 5 r with h5 | h5
  · rw [if_pos h5]
    exact ⟨⟨fun _ => h5, fun _ => rfl⟩,
      ⟨fun h => absurd h (by decide), fun h => absurd h.2 (not_le.mpr h5)⟩,
      ⟨fun h => absurd h (by decide), fun h => absurd h5 (by push_neg; linarith)⟩⟩
  · rw [if_neg (not_lt.mpr h5)]
    rcases lt_or_le 2 r with h2 | h2
    · rw [if_pos h2]
      exact ⟨⟨fun h => absurd h (by decide), fun h => absurd h (not_lt.mpr h5)⟩,
        ⟨fun _ => ⟨h2, h5⟩, fun _ => rfl⟩,
        ⟨fun h => absurd h (by decide), fun h => absurd h2 (not_lt.mpr h)⟩⟩
    · rw [if_neg (not_lt.mpr h2)]
      exact ⟨⟨fun h => absurd h (by decide), fun h => absurd h (by push_neg; linarith)⟩,
        ⟨fun h => absurd h (by decide), fun h => absurd h.1 (not_lt.mpr h2)⟩,
        ⟨fun _ => h2, fun _ => rfl⟩⟩

lemma base_costs_default (s : String) :
    base_costs s = 30000 ∨
      s = "Recharge Pit (small)" ∨ s = "Recharge Pit (large, reinforced)" ∨
      s = "Recharge Trench (medium)" ∨ s = "Recharge Shaft" ∨
      s = "Deep Bore Recharge Shaft" ∨ s = "Recharge Shaft with Trench" ∨
      s = "Modular Tank (compact)" := by
  unfold base_costs
  split_ifs with a b c d e f g <;> tauto

/-- Claim C3: For every `potential` and structure label, `cost_estimation`
returns `total_cost = base_cost + (int(potential) // 50000) * 10000`
rounded to 2 decimals, with `base_cost` drawn from the fixed
seven-entry table (30 000 for any other label); and the benefit label
is classified from `r = round(potential / total_cost, 2)` (`r = 0` when
`total_cost ≤ 0`): "High benefit" iff `r > 5`, "Moderate cost-benefit"
iff `2 < r ≤ 5`, "Low benefit" otherwise (iff `r ≤ 2`). -/
theorem cost_estimation_formula (potential : ℚ) (struct : String) :
    (cost_estimation potential struct).1 =
      round2 (((base_costs struct + (truncToInt potential).fdiv 50000 * 10000 : ℤ) : ℚ)) ∧
    (let total : ℤ := base_costs struct + (truncToInt potential).fdiv 50000 * 10000
     let r : ℚ := if 0 < total then round2 (potential / (total : ℚ)) else 0
     ((cost_estimation potential struct).2 = "High benefit" ↔ 5 < r) ∧
     ((cost_estimation potential struct).2 = "Moderate cost-benefit" ↔ 2 < r ∧ r ≤ 5) ∧
     ((cost_estimation potential struct).2 = "Low benefit" ↔ r ≤ 2)) ∧
    base_costs "Recharge Pit (small)" = 20000 ∧
    base_costs "Recharge Pit (large, reinforced)" = 40000 ∧
    base_costs "Recharge Trench (medium)" = 60000 ∧
    base_costs "Recharge Shaft" = 100000 ∧
    base_costs "Deep Bore Recharge Shaft" = 150000 ∧
    base_costs "Recharge Shaft with Trench" = 180000 ∧
    base_costs "Modular Tank (compact)" = 25000 ∧
    (base_costs struct = 30000 ∨
      struct = "Recharge Pit (small)" ∨ struct = "Recharge Pit (large, reinforced)" ∨
      struct = "Recharge Trench (medium)" ∨ struct = "Recharge Shaft" ∨
      struct = "Deep Bore Recharge Shaft" ∨ struct = "Recharge Shaft with Trench" ∨
      struct = "Modular Tank (compact)") := by
  refine ⟨rfl, ?_, rfl, rfl, rfl, rfl, rfl, rfl, rfl, base_costs_default struct⟩
  intro total r
  have hsnd : (cost_estimation potential struct).2 =
      (if 5 < r then "High benefit"
       else if 2 < r then "Moderate cost-benefit" else "Low benefit") := rfl
  rw [hsnd]
  exact benefit_label_iff r

/-- Claim C4: For every assessment input, `yearly_demand_liters =
dwellers × 135 × 365`; `coverage_percentage = round(potential /
yearly_demand × 100, 2)` when `yearly_demand > 0` and `0` otherwise;
and `demand_met_status` is classified with inclusive lower bounds in
descending order (≥100 "Fully sufficient", ≥70 "Adequate", ≥30
"Partial", else "Minimal", each with the coverage percentage formatted
into the label).  Coverage of exactly 100, 70, 30 lands in "Fully
sufficient", "Adequate", "Partial" respectively. -/
theorem assess_demand_coverage (key : Option String) (net : Unit → Option ApiResponse)
    (data : AssessData) :
    let out := assess_rtrwh key net data
    let yd : ℤ := data.dwellers.getD 1 * 135 * 365
    let c : ℚ := if 0 < yd then round2 (out.runoff_capacity / (yd : ℚ) * 100) else 0
    out.yearly_demand_liters = yd ∧
    out.coverage_percentage = c ∧
    out.demand_met_status =
      (if 100 ≤ c then "Fully sufficient"
       else if 70 ≤ c then "Adequate"
       else if 30 ≤ c then "Partial"
       else "Minimal") ++ " (" ++ (if 0 < yd then fmtHundredths c else "0") ++ "%)" ∧
    demandStatusStr 1 100 = "Fully sufficient (100.0%)" ∧
    demandStatusStr 1 70 = "Adequate (70.0%)" ∧
    demandStatusStr 1 30 = "Partial (30.0%)" := by
  intro out yd c
  have h100 : ⌊(100 : ℚ) * 100⌋ = 10000 := by
    rw [Int.floor_eq_iff]
    constructor
    · norm_num
    · norm_num
  have h70 : ⌊(70 : ℚ) * 100⌋ = 7000 := by
    rw [Int.floor_eq_iff]
    constructor
    · norm_num
    · norm_num
  have h30 : ⌊(30 : ℚ) * 100⌋ = 3000 := by
    rw [Int.floor_eq_iff]
    constructor
    · norm_num
    · norm_num
  refine ⟨rfl, rfl, rfl, ?_, ?_, ?_⟩
  · unfold demandStatusStr fmtHundredths
    rw [h100]
    norm_num
    rfl
  · unfold demandStatusStr fmtHundredths
    rw [h70]
    norm_num
    rfl
  · unfold demandStatusStr fmtHundredths
    rw [h30]
    norm_num
    rfl

/-- Claim C5: For every assessment input, the result's `feasibility`
field is `"Feasible"` if and only if the computed potential runoff is
strictly greater than 0, and is `"Not Feasible"` otherwise (it is
always one of those two strings). -/
theorem assess_feasibility_iff (key : Option String) (net : Unit → Option ApiResponse)
    (data : AssessData) :
    let out := assess_rtrwh key net data
    (out.feasibility = "Feasible" ↔ 0 < out.runoff_capacity) ∧
    (out.feasibility = "Feasible" ∨ out.feasibility = "Not Feasible") := by
  intro out
  have hf : out.feasibility =
      if 0 < out.runoff_capacity then "Feasible" else "Not Feasible" := rfl
  rw [hf]
  rcases lt_or_le 0 out.runoff_capacity with h | h
  · rw [if_pos h]
    exact ⟨⟨fun _ => h, fun _ => rfl⟩, Or.inl rfl⟩
  · rw [if_neg (not_lt.mpr h)]
    exact ⟨⟨fun hq => absurd hq (by decide), fun hq => absurd hq (not_lt.mpr h)⟩, Or.inr rfl⟩

/-- Claim C6: For the input `{dwellers: 5, roof_area: 100, open_space:
50, rainfall_mm: 800}` the full assessment yields runoff 76000.0,
structure "Recharge Trench (medium)", cost 70000, benefit label "Low
benefit" (the internal numeric ratio rounding to 1.09), yearly demand
246375, coverage 30.85 and status "Partial (30.85%)". -/
theorem assess_example_end_to_end :
    assess_rtrwh none (fun _ => none)
      { dwellers := some 5, roof_area := some 100, open_space := some 50,
        rainfall_mm := some 800 } =
      { feasibility := "Feasible"
        runoff_capacity := 76000
        recommended_structure := "Recharge Trench (medium)"
        estimated_cost := 70000
        benefit_ratio := "Low benefit"
        depth_to_groundwater_m := 0
        yearly_demand_liters := 246375
        coverage_percentage := 30.85
        demand_met_status := "Partial (30.85%)"
        structure_dimensions := "1m width × 1.5m depth × 10m length, 6 trench sections"
        rainfall_used_mm := 800 } ∧
    round2 ((76000 : ℚ) / 70000) = 1.09 := by
  have hratio : round2 ((76000 : ℚ) / 70000) = 1.09 := by
    rw [round2_eq_high ((76000 : ℚ) / 70000) 108 (by norm_num) (by norm_num)]
    norm_num
  have hpot : calculate_potential
      { name := none, location := none, latitude := 0, longitude := 0, dwellers := 5,
        roof_area := 100, open_space := 50, gw_depth := 0 } 800 = 76000 := by
    unfold calculate_potential
    have h : (800 : ℚ) * 100 * 0.8 + 800 * 50 * 0.3 = ((76000 : ℤ) : ℚ) := by norm_num
    simp only [h, round2_intCast]
    norm_num
  have hrec : recommend_structure
      { name := none, location := none, latitude := 0, longitude := 0, dwellers := 5,
        roof_area := 100, open_space := 50, gw_depth := 0 } 76000 =
      "Recharge Trench (medium)" := by
    unfold recommend_structure
    norm_num
  have hcost : cost_estimation 76000 "Recharge Trench (medium)" = (70000, "Low benefit") := by
    have hb : base_costs "Recharge Trench (medium)" = 60000 := by rfl
    have h1 : truncToInt (76000 : ℚ) = 76000 := by
      have h := truncToInt_cast 76000
      norm_num at h ⊢
      exact h
    have h2 : Int.fdiv 76000 50000 = 1 := by decide
    have h3 : round2 ((38 : ℚ) / 35) = 1.09 := by
      rw [round2_eq_high ((38 : ℚ) / 35) 108 (by norm_num) (by norm_num)]
      norm_num
    have h4 : round2 ((70000 : ℚ)) = 70000 := by
      have h := round2_intCast 70000
      norm_num at h ⊢
      exact h
    unfold cost_estimation
    simp only [hb, h1, h2]
    norm_num [h3, h4]
  have hdim : calculate_structure_dimensions "Recharge Trench (medium)" 76000 =
      "1m width × 1.5m depth × 10m length, 6 trench sections" := by
    unfold calculate_structure_dimensions
    rw [if_neg (by decide : ¬ (strContains "Recharge Trench (medium)" "Pit" = true))]
    rw [if_pos (by decide : strContains "Recharge Trench (medium)" "Trench" = true)]
    rw [if_pos (by norm_num : (0 : ℚ) < 76000)]
    have hc6 : ⌈(76000 : ℚ) / 15000⌉ = 6 := by
      rw [Int.ceil_eq_iff]
      constructor
      · norm_num
      · norm_num
    rw [hc6]
    rfl
  have hcov : round2 ((76000 : ℚ) / ((246375 : ℤ) : ℚ) * 100) = 30.85 := by
    rw [round2_eq_high _ 3084 (by push_cast; norm_num) (by push_cast; norm_num)]
    norm_num
  have hds : demandStatusStr 246375 (30.85 : ℚ) = "Partial (30.85%)" := by
    have h : ⌊(30.85 : ℚ) * 100⌋ = 3085 := by
      rw [Int.floor_eq_iff]
      constructor
      · norm_num
      · norm_num
    unfold demandStatusStr fmtHundredths
    rw [h]
    norm_num
    rfl
  refine ⟨?_, hratio⟩
  simp only [assess_rtrwh, Option.getD]
  simp only [hpot, hrec, hcost, hdim]
  rw [if_pos (by norm_num : (0 : ℚ) < 76000)]
  have hyd : (5 * 135 * 365 : ℤ) = 246375 := by norm_num
  rw [hyd]
  rw [if_pos (by norm_num : (0 : ℤ) < 246375)]
  rw [hcov, hds]

lemma append_ne_of_head (a t b g : String) (c c' : Char) (la lg : List Char)
    (ha : a.data = c :: la) (hg : g.data = c' :: lg) (hcc : c ≠ c') :
    a ++ t ++ b ≠ g := by
  intro h
  have hd := congrArg String.data h
  rw [String.data_append, String.data_append, ha, hg] at hd
  simp only [List.cons_append] at hd
  injection hd with h1 _
  exact hcc h1

lemma append_ne_of_last (t b g : String) (c c' : Char) (lb lg : List Char)
    (hb : b.data.reverse = c :: lb) (hg : g.data.reverse = c' :: lg) (hcc : c ≠ c') :
    t ++ b ≠ g := by
  intro h
  have hd := congrArg (fun s => s.data.reverse) h
  simp only [String.data_append, List.reverse_append] at hd
  rw [hb, hg] at hd
  simp only [List.cons_append] at hd
  injection hd with h1 _
  exact hcc h1

lemma dims_pit_small (p : ℚ) :
    calculate_structure_dimensions "Recharge Pit (small)" p =
      "1.2m × 1.2m × 2m each, " ++ toString (if 0 < p then ⌈p / 2500⌉ else 0) ++ " pits" := by
  unfold calculate_structure_dimensions
  rw [if_pos (by decide : strContains "Recharge Pit (small)" "Pit" = true)]

lemma dims_pit_large (p : ℚ) :
    calculate_structure_dimensions "Recharge Pit (large, reinforced)" p =
      "1.2m × 1.2m × 2m each, " ++ toString (if 0 < p then ⌈p / 2500⌉ else 0) ++ " pits" := by
  unfold calculate_structure_dimensions
  rw [if_pos (by decide : strContains "Recharge Pit (large, reinforced)" "Pit" = true)]

lemma dims_trench_medium (p : ℚ) :
    calculate_structure_dimensions "Recharge Trench (medium)" p =
      "1m width × 1.5m depth × 10m length, " ++
        toString (if 0 < p then ⌈p / 15000⌉ else 0) ++ " trench sections" := by
  unfold calculate_structure_dimensions
  rw [if_neg (by decide : ¬ (strContains "Recharge Trench (medium)" "Pit" = true))]
  rw [if_pos (by decide : strContains "Recharge Trench (medium)" "Trench" = true)]

lemma dims_shaft_with_trench (p : ℚ) :
    calculate_structure_dimensions "Recharge Shaft with Trench" p =
      "1m width × 1.5m depth × 10m length, " ++
        toString (if 0 < p then ⌈p / 15000⌉ else 0) ++ " trench sections" := by
  unfold calculate_structure_dimensions
  rw [if_neg (by decide : ¬ (strContains "Recharge Shaft with Trench" "Pit" = true))]
  rw [if_pos (by decide : strContains "Recharge Shaft with Trench" "Trench" = true)]

lemma dims_deep_shaft (p : ℚ) :
    calculate_structure_dimensions "Deep Bore Recharge Shaft" p =
      "2m diameter × 10m depth, " ++ toString (if 0 < p then ⌈p / 50000⌉ else 0) ++ " shafts" := by
  unfold calculate_structure_dimensions
  rw [if_neg (by decide : ¬ (strContains "Deep Bore Recharge Shaft" "Pit" = true))]
  rw [if_neg (by decide : ¬ (strContains "Deep Bore Recharge Shaft" "Trench" = true))]
  rw [if_pos (by decide : strContains "Deep Bore Recharge Shaft" "Shaft" = true)]

lemma dims_modular_tank (p : ℚ) :
    calculate_structure_dimensions "Modular Tank (compact)" p =
      toString (if 0 < p then ⌈p / 1000⌉ else 0) ++ " m³ modular tank system" := by
  unfold calculate_structure_dimensions
  rw [if_neg (by decide : ¬ (strContains "Modular Tank (compact)" "Pit" = true))]
  rw [if_neg (by decide : ¬ (strContains "Modular Tank (compact)" "Trench" = true))]
  rw [if_neg (by decide : ¬ (strContains "Modular Tank (compact)" "Shaft" = true))]
  rw [if_pos (by decide : strContains "Modular Tank (compact)" "Modular" = true)]

/-- Claim C7: `calculate_structure_dimensions` matches substrings in the
order Pit, Trench, Shaft, Modular, sizing with `ceil(potential/2500)`
pits, `ceil(potential/15000)` trench sections, `ceil(potential/50000)`
shafts, or `ceil(potential/1000)` m³ (0 when `potential ≤ 0`); in
particular "Recharge Shaft with Trench" receives the Trench sizing,
and no label `recommend_structure` can output ever reaches the generic
fallback message. -/
theorem structure_dimensions_dispatch (struct : String) (potential : ℚ) :
    calculate_structure_dimensions struct potential =
      (if strContains struct "Pit" then
        "1.2m × 1.2m × 2m each, " ++
          toString (if 0 < potential then ⌈potential / 2500⌉ else 0) ++ " pits"
      else if strContains struct "Trench" then
        "1m width × 1.5m depth × 10m length, " ++
          toString (if 0 < potential then ⌈potential / 15000⌉ else 0) ++ " trench sections"
      else if strContains struct "Shaft" then
        "2m diameter × 10m depth, " ++
          toString (if 0 < potential then ⌈potential / 50000⌉ else 0) ++ " shafts"
      else if strContains struct "Modular" then
        toString (if 0 < potential then ⌈potential / 1000⌉ else 0) ++ " m³ modular tank system"
      else "Standard design as per site conditions") ∧
    calculate_structure_dimensions "Recharge Shaft with Trench" potential =
      "1m width × 1.5m depth × 10m length, " ++
        toString (if 0 < potential then ⌈potential / 15000⌉ else 0) ++ " trench sections" ∧
    (∀ (u : UserInput) (q : ℚ),
      calculate_structure_dimensions (recommend_structure u q) potential ≠
        "Standard design as per site conditions") := by
  refine ⟨rfl, dims_shaft_with_trench potential, ?_⟩
  intro u q
  unfold recommend_structure
  split_ifs
  · rw [dims_modular_tank]
    exact append_ne_of_last _ _ _ 'm' 's' _ _ rfl rfl (by decide)
  · rw [dims_pit_small]
    exact append_ne_of_head _ _ _ _ '1' 'S' _ _ rfl rfl (by decide)
  · rw [dims_trench_medium]
    exact append_ne_of_head _ _ _ _ '1' 'S' _ _ rfl rfl (by decide)
  · rw [dims_pit_large]
    exact append_ne_of_head _ _ _ _ '1' 'S' _ _ rfl rfl (by decide)
  · rw [dims_shaft_with_trench]
    exact append_ne_of_head _ _ _ _ '1' 'S' _ _ rfl rfl (by decide)
  · rw [dims_deep_shaft]
    exact append_ne_of_head _ _ _ _ '2' 'S' _ _ rfl rfl (by decide)

/-- Concrete witness instantiating `structure_dimensions_dispatch`:
the recommended structure for a site with 10 m² of open space and
potential 76000 is never the generic fallback. -/
theorem structure_dimensions_dispatch_witness :
    calculate_structure_dimensions
      (recommend_structure
        { name := none, location := none, latitude := 0, longitude := 0, dwellers := 1,
          roof_area := 100, open_space := 10, gw_depth := 0 } 76000) 76000 ≠
      "Standard design as per site conditions" :=
  (structure_dimensions_dispatch "Recharge Shaft with Trench" 76000).2.2
    { name := none, location := none, latitude := 0, longitude := 0, dwellers := 1,
      roof_area := 100, open_space := 10, gw_depth := 0 } 76000

/-- Claim C8: For every fixed structure label and all potentials
`p1 ≤ p2` (including negative values), the total cost returned by
`cost_estimation` is monotonically non-decreasing in the potential. -/
theorem cost_estimation_monotone (struct : String) (p1 p2 : ℚ) (h : p1 ≤ p2) :
    (cost_estimation p1 struct).1 ≤ (cost_estimation p2 struct).1 := by
  have e1 : (cost_estimation p1 struct).1 =
      ((base_costs struct + (truncToInt p1).fdiv 50000 * 10000 : ℤ) : ℚ) :=
    round2_intCast _
  have e2 : (cost_estimation p2 struct).1 =
      ((base_costs struct + (truncToInt p2).fdiv 50000 * 10000 : ℤ) : ℚ) :=
    round2_intCast _
  rw [e1, e2]
  have hd : (truncToInt p1).fdiv 50000 ≤ (truncToInt p2).fdiv 50000 :=
    fdiv_50000_mono (truncToInt_mono h)
  have ht : base_costs struct + (truncToInt p1).fdiv 50000 * 10000 ≤
      base_costs struct + (truncToInt p2).fdiv 50000 * 10000 :=
    add_le_add_left (mul_le_mul_of_nonneg_right hd (by norm_num)) _
  exact_mod_cast ht

/-- Concrete witness instantiating `cost_estimation_monotone` at
`p1 = 0 ≤ 1 = p2`. -/
theorem cost_estimation_monotone_witness :
    (0 : ℚ) ≤ 1 ∧
      (cost_estimation 0 "Recharge Pit (small)").1 ≤ (cost_estimation 1 "Recharge Pit (small)").1 :=
  ⟨by norm_num, cost_estimation_monotone "Recharge Pit (small)" 0 1 (by norm_num)⟩

/-- Claim C9: The result's `depth_to_groundwater_m` field equals the
supplied `gw_depth` unchanged (its coerced value, default 0), and two
inputs differing only in `gw_depth` produce results that agree on
every other field: `gw_depth` influences no computation. -/
theorem gw_depth_passthrough (key : Option String) (net : Unit → Option ApiResponse)
    (data : AssessData) (g : Option ℚ) :
    (assess_rtrwh key net data).depth_to_groundwater_m = data.gw_depth.getD 0 ∧
    assess_rtrwh key net { data with gw_depth := g } =
      { assess_rtrwh key net data with depth_to_groundwater_m := g.getD 0 } := by
  exact ⟨rfl, rfl⟩

/-- Claim C10: When no `rainfall_mm` is supplied, no provider credential
is configured, and no non-zero coordinates or non-empty location are
given, the rainfall resolver returns exactly 1000.0 without making any
network call (the second component records whether the network oracle
was consulted), and the assessment's `rainfall_used_mm` is 1000.0. -/
theorem rainfall_default_no_network (data : AssessData) (net : Unit → Option ApiResponse)
    (hrain : data.rainfall_mm = none)
    (_hlat : data.latitude.getD 0 = 0) (_hlon : data.longitude.getD 0 = 0)
    (_hloc : data.location = none ∨ data.location = some "") :
    get_rainfall (data.latitude.getD 0) (data.longitude.getD 0) data.location none net =
      (1000.0, false) ∧
    (assess_rtrwh none net data).rainfall_used_mm = 1000.0 := by
  have hg : get_rainfall (data.latitude.getD 0) (data.longitude.getD 0) data.location none net =
      (1000.0, false) := by
    unfold get_rainfall
    have hk : optStrTruthy (none : Option String) = false := rfl
    rw [hk]
    simp only [Bool.and_false, Bool.false_eq_true, if_false]
  refine ⟨hg, ?_⟩
  simp only [assess_rtrwh, hrain]
  rw [hg]

/-- Concrete witness instantiating `rainfall_default_no_network` on
the empty request (all fields absent) with an inert network oracle. -/
theorem rainfall_default_no_network_witness :
    (({} : AssessData).rainfall_mm = none ∧
      ({} : AssessData).latitude.getD 0 = 0 ∧
      ({} : AssessData).longitude.getD 0 = 0 ∧
      (({} : AssessData).location = none ∨ ({} : AssessData).location = some "")) ∧
    get_rainfall (({} : AssessData).latitude.getD 0) (({} : AssessData).longitude.getD 0)
        ({} : AssessData).location none (fun _ => none) = (1000.0, false) ∧
    (assess_rtrwh none (fun _ => none) ({} : AssessData)).rainfall_used_mm = 1000.0 :=
  ⟨⟨rfl, rfl, rfl, Or.inl rfl⟩,
    rainfall_default_no_network {} (fun _ => none) rfl rfl rfl (Or.inl rfl)⟩

end Rainwater
